import Mathlib

/-!
Shallow embedding of the `ts-res` Result library (`src/lib/main.ts`).

The library models the outcome of a fallible operation as a tagged union
`Result<T, E>` with two shapes, `{ ok: true, data: T }` and
`{ ok: false, error: E }`, built by the constructors `Ok` and `Err`, and
four accessors `throw` (`throwErr`), `else` (`elseDo`), `or` and `and`.

The error channel `E` is constrained to `string | Error | undefined | void`.
We embed it as `ErrVal`: the absent value, a plain string, or a reference
into a heap of structured error objects (`ErrObj`, a `message` field plus
arbitrary extra fields).  Keeping structured errors behind references lets
us state the in-place-mutation behaviour of `throw` faithfully: the
function returns the possibly updated heap next to its outcome, and the
raised value is the reference itself, not a copy of the object.

Every embedded accessor is a function `... → Heap → Outcome α × Heap`:
`Outcome.normal v` is an ordinary return, `Outcome.thrown t` is a raised
JavaScript error (either a freshly constructed `Error` carrying a message,
or the structured error object thrown by reference).  Caller-supplied
callbacks get the same type, so a callback may itself raise or touch the
heap, exactly as in the host language.
-/

namespace TsRes

/-- A structured error object: the host `Error` value, with its mutable
`message` field and arbitrary further fields (modelled as a list of
key/value pairs, untouched by the library). -/
structure ErrObj where
  message : String
  extra : List (String × String)
deriving DecidableEq

/-- Replace the `message` field of a structured error object, keeping every
other field (`this.error.message = message` in `throwErr`). -/
def ErrObj.setMsg (o : ErrObj) (m : String) : ErrObj :=
  ⟨m, o.extra⟩

/-- The error channel `ErrType = string | Error | undefined | void` of the
library: the absent value (`undefined`, also covering `void`), a plain
string, or a structured error object held by reference into the heap. -/
inductive ErrVal where
  | undef : ErrVal
  | str : String → ErrVal
  | ref : Nat → ErrVal
deriving DecidableEq

/-- The heap of structured error objects; `ErrVal.ref i` points at index `i`. -/
abbrev Heap := List ErrObj

/-- A raised JavaScript error: either a freshly constructed
`new Error(message)`, or a structured error object thrown by reference. -/
inductive Thrown where
  | newError : String → Thrown
  | raisedRef : Nat → Thrown
deriving DecidableEq

/-- Result of running an embedded statement: a normal return value, or a
raised error propagating to the caller. -/
inductive Outcome (α : Type) where
  | normal : α → Outcome α
  | thrown : Thrown → Outcome α
deriving DecidableEq

/-- The tagged union `Result<T, E>`: `{ ok: true, data: T }` or
`{ ok: false, error: E }`. -/
inductive Result (T : Type) (E : Type) where
  | ok : T → Result T E
  | err : E → Result T E
deriving DecidableEq

/-- The `ok` boolean discriminator field of a Result. -/
def Result.okFlag {T E : Type} : Result T E → Bool
  | .ok _ => true
  | .err _ => false

/-- The `data` field, present exactly on the Success shape. -/
def Result.dataField {T E : Type} : Result T E → Option T
  | .ok d => some d
  | .err _ => none

/-- The `error` field, present exactly on the Failure shape. -/
def Result.errorField {T E : Type} : Result T E → Option E
  | .ok _ => none
  | .err e => some e

/-- Constructor `Ok(data)`: wraps `data` exactly as given into the Success
shape; pure, cannot fail (`src/lib/main.ts`, `Ok`). -/
def Ok {T E : Type} (data : T) : Result T E :=
  Result.ok data

/-- Constructor `Err(error)`: wraps `error` exactly as given into the
Failure shape; pure, cannot fail (`src/lib/main.ts`, `Err`). -/
def Err {T E : Type} (error : E) : Result T E :=
  Result.err error

/-- The fixed default text used by `throwErr` when neither an override
message nor a string error is available. -/
def defaultMessage : String :=
  "There was an error! No specific error message was provided."

/-- JavaScript `a || d` for a left operand of type `string | undefined` and
a string right operand: the left string when it is truthy (present and
non-empty), otherwise `d`. -/
def jsOrStr : Option String → String → String
  | some s, d => if s = "" then d else s
  | none, d => d

/-- The expression `message || this.error || defaultMessage` from the
string/undefined branch of `throwErr`, with `errStr` standing for
`this.error` (absent or a string in that branch). -/
def resolvePlain (message errStr : Option String) : String :=
  jsOrStr message (jsOrStr errStr defaultMessage)

/-- The in-place write `this.error.message = message`: overwrite the
`message` field of the object stored at index `i` of the heap. -/
def setMessage (heap : Heap) (i : Nat) (m : String) : Heap :=
  match heap.get? i with
  | some o => heap.set i (o.setMsg m)
  | none => heap

/-- `throwErr` (`src/lib/main.ts` lines 5-25, the current variant): on a
Failure whose error is a string or absent, raise
`new Error(message || this.error || defaultMessage)`; on a Failure whose
error is a structured object, overwrite its `message` field when a truthy
override `message` was supplied, then raise the object itself; on a
Success, return `this.data`. -/
def throwErr {T : Type} (r : Result T ErrVal) (message : Option String)
    (heap : Heap) : Outcome T × Heap :=
  match r with
  | .err e =>
    match e with
    | .undef => (Outcome.thrown (Thrown.newError (resolvePlain message none)), heap)
    | .str s => (Outcome.thrown (Thrown.newError (resolvePlain message (some s))), heap)
    | .ref i =>
      match message with
      | some m =>
        if m = "" then (Outcome.thrown (Thrown.raisedRef i), heap)
        else (Outcome.thrown (Thrown.raisedRef i), setMessage heap i m)
      | none => (Outcome.thrown (Thrown.raisedRef i), heap)
  | .ok d => (Outcome.normal d, heap)

/-- The earlier `throwErr` variant (`src/lib/main.ts` lines 131-147): same
string/undefined branch, but a structured error object is always raised
unmodified, with no mutation branch. -/
def throwErrOld {T : Type} (r : Result T ErrVal) (message : Option String)
    (heap : Heap) : Outcome T × Heap :=
  match r with
  | .err e =>
    match e with
    | .undef => (Outcome.thrown (Thrown.newError (resolvePlain message none)), heap)
    | .str s => (Outcome.thrown (Thrown.newError (resolvePlain message (some s))), heap)
    | .ref i => (Outcome.thrown (Thrown.raisedRef i), heap)
  | .ok d => (Outcome.normal d, heap)

/-- `elseDo` (`src/lib/main.ts` lines 29-41): return `this.data` on a
Success; on a Failure, return `callback(this.error)` (the callback runs in
the host semantics, so it may itself raise or touch the heap). -/
def elseDo {T E : Type} (r : Result T E) (callback : E → Heap → Outcome T × Heap)
    (heap : Heap) : Outcome T × Heap :=
  match r with
  | .ok d => (Outcome.normal d, heap)
  | .err e => callback e heap

/-- `or` (`src/lib/main.ts` lines 43-49): return `this.data` on a Success,
the caller-supplied `orValue` on a Failure. -/
def or {T E : Type} (r : Result T E) (orValue : T) (heap : Heap) :
    Outcome T × Heap :=
  match r with
  | .ok d => (Outcome.normal d, heap)
  | .err _ => (Outcome.normal orValue, heap)

/-- `and` (`src/lib/main.ts` lines 51-58): on a Success, run
`callback(this.data)` and return nothing; on a Failure, do nothing. -/
def and {T E : Type} (r : Result T E) (callback : T → Heap → Outcome Unit × Heap)
    (heap : Heap) : Outcome Unit × Heap :=
  match r with
  | .ok d => callback d heap
  | .err _ => (Outcome.normal (), heap)

/-- C7: `Ok v` is a Success Result with `ok = true` whose data is exactly
`v`, and `Err e` is a Failure Result with `ok = false` whose error is
exactly `e`; both constructors are pure total functions that cannot fail. -/
theorem ok_err_construct {T E : Type} (v : T) (e : E) :
    (Ok (E := E) v).okFlag = true ∧ (Ok (E := E) v).dataField = some v
    ∧ (Err (T := T) e).okFlag = false ∧ (Err (T := T) e).errorField = some e :=
  ⟨rfl, rfl, rfl, rfl⟩

/-- C3: calling `throw` on a Success Result `Ok v` returns `v` unchanged and
never raises, whatever the override message and the heap. -/
theorem throw_on_ok {T : Type} (v : T) (msg : Option String) (heap : Heap) :
    throwErr (Ok v) msg heap = (Outcome.normal v, heap) :=
  rfl

/-- C4: `or` returns the success payload on a Success and the caller's
fallback on a Failure; both cases return normally (never raise), leave the
heap untouched (no side effects), and the Failure case is the same for
every error value (the error is never inspected). -/
theorem or_ok_or_fallback {T E : Type} (v f : T) (e : E) (heap : Heap) :
    TsRes.or (Ok (E := E) v) f heap = (Outcome.normal v, heap)
    ∧ TsRes.or (Err (T := T) e) f heap = (Outcome.normal f, heap) :=
  ⟨rfl, rfl⟩

/-- C5: `else` returns the success payload on a Success without invoking the
callback (the equation holds for every callback, which never runs); on a
Failure the whole computation is exactly one invocation of the callback at
the failure's error, and its outcome is the callback's outcome. -/
theorem else_skips_ok_calls_once_on_err {T E : Type} (v : T) (e : E)
    (cb : E → Heap → Outcome T × Heap) (heap : Heap) :
    elseDo (Ok v) cb heap = (Outcome.normal v, heap)
    ∧ elseDo (Err e) cb heap = cb e heap :=
  ⟨rfl, rfl⟩

/-- C6: `and` on a Success is exactly one invocation of the callback at the
success payload, returning nothing beyond the callback's outcome; on a
Failure the callback never runs and the error is silently discarded. -/
theorem and_calls_once_on_ok_skips_err {T E : Type} (v : T) (e : E)
    (cb : T → Heap → Outcome Unit × Heap) (heap : Heap) :
    TsRes.and (Ok (E := E) v) cb heap = cb v heap
    ∧ TsRes.and (Err (T := T) e) cb heap = (Outcome.normal (), heap) :=
  ⟨rfl, rfl⟩

/-- C1: throwing a Failure whose error is absent or a plain string raises a
freshly built error whose message is the override when one is supplied
(non-empty: the library treats an empty string as absent, see the
empty-string theorem), else the string error when present (non-empty), else
exactly the fixed default text. -/
theorem throw_plain_resolution {T : Type} (msg : Option String) (s : String)
    (heap : Heap) :
    (∀ m, msg = some m → m ≠ "" →
      throwErr (T := T) (Err ErrVal.undef) msg heap
        = (Outcome.thrown (Thrown.newError m), heap)
      ∧ throwErr (T := T) (Err (ErrVal.str s)) msg heap
        = (Outcome.thrown (Thrown.newError m), heap))
    ∧ ((msg = none ∨ msg = some "") → s ≠ "" →
      throwErr (T := T) (Err (ErrVal.str s)) msg heap
        = (Outcome.thrown (Thrown.newError s), heap))
    ∧ ((msg = none ∨ msg = some "") →
      throwErr (T := T) (Err ErrVal.undef) msg heap
        = (Outcome.thrown (Thrown.newError defaultMessage), heap)
      ∧ throwErr (T := T) (Err (ErrVal.str "")) msg heap
        = (Outcome.thrown (Thrown.newError defaultMessage), heap)) := by
  refine ⟨?_, ?_, ?_⟩
  · rintro m rfl hm
    exact ⟨by simp [throwErr, Err, resolvePlain, jsOrStr, hm],
      by simp [throwErr, Err, resolvePlain, jsOrStr, hm]⟩
  · rintro (rfl | rfl) hs
    · simp [throwErr, Err, resolvePlain, jsOrStr, hs]
    · simp [throwErr, Err, resolvePlain, jsOrStr, hs]
  · rintro (rfl | rfl)
    · exact ⟨rfl, rfl⟩
    · exact ⟨rfl, rfl⟩

/-- C1 witness: at the concrete override "Custom" over the string error
"boom", `throw` raises a fresh error carrying "Custom". -/
theorem throw_plain_resolution_spot :
    throwErr (T := Nat) (Err (ErrVal.str "boom")) (some "Custom") []
      = (Outcome.thrown (Thrown.newError "Custom"), []) :=
  ((throw_plain_resolution (T := Nat) (some "Custom") "boom" []).1 "Custom" rfl
    (by decide)).2

/-- C2: throwing a Failure holding a structured error object (a valid heap
reference) with a non-empty override overwrites that object's `message`
field in place — same heap cell, every other field and every other cell
unchanged — and raises the very same reference, not a copy; with no
override the object is raised unmodified and the heap is untouched. -/
theorem throw_structured_mutation {T : Type} (i : Nat) (o : ErrObj)
    (heap : Heap) (hval : heap.get? i = some o) :
    (∀ m, m ≠ "" →
      throwErr (T := T) (Err (ErrVal.ref i)) (some m) heap
        = (Outcome.thrown (Thrown.raisedRef i), heap.set i ⟨m, o.extra⟩)
      ∧ (heap.set i (ErrObj.mk m o.extra)).get? i = some ⟨m, o.extra⟩
      ∧ ∀ j, j ≠ i → (heap.set i (ErrObj.mk m o.extra)).get? j = heap.get? j)
    ∧ throwErr (T := T) (Err (ErrVal.ref i)) none heap
        = (Outcome.thrown (Thrown.raisedRef i), heap) := by
  constructor
  · intro m hm
    obtain ⟨hlt, -⟩ := List.get?_eq_some.1 hval
    have hval' : heap[i]? = some o := by
      rw [← List.get?_eq_getElem?]
      exact hval
    refine ⟨?_, ?_, ?_⟩
    · simp [throwErr, Err, setMessage, hval, hval', ErrObj.setMsg, hm]
    · exact List.get?_set_eq_of_lt _ hlt
    · intro j hj
      exact List.get?_set_ne _ _ (fun h => hj h.symm)
  · rfl

/-- C2 witness: on the one-object heap holding message "orig", the override
"Custom" rewrites the object in place and raises the same reference. -/
theorem throw_structured_mutation_spot :
    throwErr (T := Nat) (Err (ErrVal.ref 0)) (some "Custom")
        [ErrObj.mk "orig" []]
      = (Outcome.thrown (Thrown.raisedRef 0), [ErrObj.mk "Custom" []]) :=
  ((throw_structured_mutation (T := Nat) 0 ⟨"orig", []⟩ [⟨"orig", []⟩] rfl).1
    "Custom" (by decide)).1

/-- C8: `or`, `else` and `and` complete normally on every Result (given
callbacks that themselves return normally), while `throw` on any Failure
always raises: only `throw` escalates a Failure into a raised error. -/
theorem accessors_never_raise {T E : Type} (r : Result T E) (f : T)
    (cbE : E → Heap → Outcome T × Heap) (cbT : T → Heap → Outcome Unit × Heap)
    (heap : Heap)
    (hE : ∀ e hp, ∃ v hp', cbE e hp = (Outcome.normal v, hp'))
    (hT : ∀ d hp, ∃ v hp', cbT d hp = (Outcome.normal v, hp')) :
    (∃ v, TsRes.or r f heap = (Outcome.normal v, heap))
    ∧ (∃ v hp', elseDo r cbE heap = (Outcome.normal v, hp'))
    ∧ (∃ v hp', TsRes.and r cbT heap = (Outcome.normal v, hp'))
    ∧ ∀ (e' : ErrVal) (msg : Option String) (hp : Heap),
        ∃ t, (throwErr (T := T) (Err e') msg hp).1 = Outcome.thrown t := by
  refine ⟨?_, ?_, ?_, ?_⟩
  · cases r with
    | ok d => exact ⟨d, rfl⟩
    | err e => exact ⟨f, rfl⟩
  · cases r with
    | ok d => exact ⟨d, heap, rfl⟩
    | err e => exact hE e heap
  · cases r with
    | ok d => exact hT d heap
    | err e => exact ⟨(), heap, rfl⟩
  · intro e' msg hp
    cases e' with
    | undef => exact ⟨_, rfl⟩
    | str s => exact ⟨_, rfl⟩
    | ref i =>
      cases msg with
      | none => exact ⟨_, rfl⟩
      | some m =>
        by_cases hm : m = ""
        · exact ⟨Thrown.raisedRef i, by simp [throwErr, Err, hm]⟩
        · exact ⟨Thrown.raisedRef i, by simp [throwErr, Err, hm]⟩

/-- C8 witness: with a normally-returning callback, the accessors complete
normally at a concrete Success Result (shown for `or`). -/
theorem accessors_never_raise_spot :
    ∃ v, TsRes.or (Ok (E := String) (1 : Nat)) 2 [] = (Outcome.normal v, []) :=
  (accessors_never_raise (E := String) (Ok (1 : Nat)) 2
    (fun _ hp => (Outcome.normal 0, hp)) (fun _ hp => (Outcome.normal (), hp))
    [] (fun _ hp => ⟨0, hp, rfl⟩) (fun _ hp => ⟨(), hp, rfl⟩)).1

/-- C9: an empty string is treated as absent by `throw`: a Failure whose
error is the empty string raises the fixed default text, and passing the
empty string as the override behaves exactly like passing no override on
every error shape. -/
theorem empty_string_as_absent {T : Type} (e : ErrVal) (heap : Heap) :
    throwErr (T := T) (Err (ErrVal.str "")) none heap
      = (Outcome.thrown (Thrown.newError defaultMessage), heap)
    ∧ throwErr (T := T) (Err e) (some "") heap
      = throwErr (T := T) (Err e) none heap := by
  refine ⟨rfl, ?_⟩
  cases e <;> rfl

/-- C10 counterexample: with the structured error at heap index 0 carrying
message "orig" and the non-empty override "Custom", the current `throwErr`
mutates the object while the earlier variant leaves it unchanged, so the
two variants are not extensionally equal. -/
theorem current_old_throw_differ :
    throwErr (T := Nat) (Err (ErrVal.ref 0)) (some "Custom")
        [ErrObj.mk "orig" []]
      ≠ throwErrOld (T := Nat) (Err (ErrVal.ref 0)) (some "Custom")
        [ErrObj.mk "orig" []] := by
  decide

/-- C10 amended: the current and the earlier `throwErr` agree on every
Success, on every Failure whose error is absent or a string, and on every
Result when no override (or an empty one) is supplied; they differ only
when a non-empty override meets a structured error object, where the
current variant additionally overwrites the object's message. -/
theorem current_old_throw_agree {T : Type} (r : Result T ErrVal)
    (msg : Option String) (heap : Heap)
    (hcase : (∀ i, r ≠ Err (ErrVal.ref i)) ∨ msg = none ∨ msg = some "") :
    throwErr r msg heap = throwErrOld r msg heap := by
  cases r with
  | ok d => rfl
  | err e =>
    cases e with
    | undef => rfl
    | str s => rfl
    | ref i =>
      rcases hcase with h | rfl | rfl
      · exact absurd rfl (h i)
      · rfl
      · rfl

/-- C10 amended witness: with no override the two variants agree on a
structured-error Failure. -/
theorem current_old_throw_agree_spot :
    throwErr (T := Nat) (Err (ErrVal.ref 0)) none [ErrObj.mk "orig" []]
      = throwErrOld (T := Nat) (Err (ErrVal.ref 0)) none [ErrObj.mk "orig" []] :=
  current_old_throw_agree (Err (ErrVal.ref 0)) none [ErrObj.mk "orig" []]
    (Or.inr (Or.inl rfl))

end TsRes
